import Mathlib

/-!
Verification development for the frogworks daemon
(`src/daemon/src/main.rs`): single-instance check, loopback relay of
command-line arguments as JSON over TCP, tray presence task, and the
orchestrating `main`.

The wire format is modelled at the byte level: a byte is a `Nat`
(value `< 256` for real traffic; all traffic considered here is ASCII,
where Rust's `String::from_utf8_lossy` is byte-preserving, so it is
modelled as the identity).  `serde_json` is third-party code, modelled
from the JSON format it implements: a compact encoder matching
`Value::to_string` (object keys held in `BTreeMap` order, i.e. sorted),
and a recursive-descent parser for the JSON subset exchanged on this
channel (strings with the simple escapes, integers, arrays, objects,
literals; no `\u` escapes, fractions or exponents, none of which occur
in any input considered below).
-/

namespace Frogworks

/-- The bytes of an ASCII string literal. -/
def bytesOf (s : String) : List Nat :=
  s.data.map (fun c => c.toNat)

/-- `serde_json::Value`, restricted to the shapes this program exchanges
(numbers as integers; strings as byte lists). -/
inductive Json where
  | null : Json
  | bool (b : Bool) : Json
  | num (n : Int) : Json
  | str (s : List Nat) : Json
  | arr (xs : List Json) : Json
  | obj (fields : List (List Nat × Json)) : Json

/-- Hex digit byte for `\u00XX` escapes (lower case, as `serde_json` emits). -/
def hexDigit (n : Nat) : Nat :=
  if n < 10 then 48 + n else 87 + n

/-- `serde_json` string escaping of one byte: `"` and `\` are
backslash-escaped, the named control escapes are used for backspace, tab,
newline, form feed and carriage return, any other control byte becomes
`\u00XX`, and every other byte is emitted as itself. -/
def escapeByte (b : Nat) : List Nat :=
  if b = 34 then [92, 34]
  else if b = 92 then [92, 92]
  else if b = 8 then [92, 98]
  else if b = 9 then [92, 116]
  else if b = 10 then [92, 110]
  else if b = 12 then [92, 102]
  else if b = 13 then [92, 114]
  else if b < 32 then [92, 117, 48, 48, hexDigit (b / 16), hexDigit (b % 16)]
  else [b]

/-- A JSON string literal: quote, escaped content, quote. -/
def encodeStringBytes (s : List Nat) : List Nat :=
  [34] ++ (s.map escapeByte).flatten ++ [34]

/-- Decimal digits (as ASCII bytes) of a natural number. -/
def natDigits (n : Nat) : List Nat :=
  (Nat.toDigits 10 n).map (fun c => c.toNat)

/-- Decimal rendering of an integer. -/
def intDigits (n : Int) : List Nat :=
  if n < 0 then 45 :: natDigits n.natAbs else natDigits n.natAbs

mutual

/-- Compact JSON encoding, as `serde_json::Value::to_string` produces it:
no whitespace, object fields in stored (sorted) order. -/
def encodeJson : Json → List Nat
  | .null => bytesOf "null"
  | .bool true => bytesOf "true"
  | .bool false => bytesOf "false"
  | .num n => intDigits n
  | .str s => encodeStringBytes s
  | .arr xs => [91] ++ encodeJsonArr xs ++ [93]
  | .obj fs => [123] ++ encodeJsonObj fs ++ [125]

/-- Comma-separated encodings of array elements. -/
def encodeJsonArr : List Json → List Nat
  | [] => []
  | [x] => encodeJson x
  | x :: y :: xs => encodeJson x ++ [44] ++ encodeJsonArr (y :: xs)

/-- Comma-separated `"key":value` encodings of object fields. -/
def encodeJsonObj : List (List Nat × Json) → List Nat
  | [] => []
  | [(k, v)] => encodeStringBytes k ++ [58] ++ encodeJson v
  | (k, v) :: f :: fs =>
      encodeStringBytes k ++ [58] ++ encodeJson v ++ [44] ++ encodeJsonObj (f :: fs)

end

/-- Skip JSON insignificant whitespace (space, tab, newline, carriage return). -/
def skipWs : List Nat → List Nat
  | b :: rest =>
      if b = 32 || b = 9 || b = 10 || b = 13 then skipWs rest else b :: rest
  | [] => []

/-- Resolve a simple escape character (the byte after a backslash).
`\uXXXX` escapes are outside the modelled subset and are rejected. -/
def unescapeByte (b : Nat) : Option Nat :=
  if b = 34 then some 34
  else if b = 92 then some 92
  else if b = 47 then some 47
  else if b = 98 then some 8
  else if b = 102 then some 12
  else if b = 110 then some 10
  else if b = 114 then some 13
  else if b = 116 then some 9
  else none

/-- Parse the body of a JSON string after the opening quote, returning the
decoded bytes and the input after the closing quote; fails on unterminated
strings and unsupported escapes. -/
def parseStringBody : List Nat → Option (List Nat × List Nat)
  | [] => none
  | 34 :: rest => some ([], rest)
  | 92 :: e :: rest =>
      match unescapeByte e with
      | none => none
      | some c =>
        match parseStringBody rest with
        | none => none
        | some (s, r) => some (c :: s, r)
  | 92 :: [] => none
  | b :: rest =>
      match parseStringBody rest with
      | none => none
      | some (s, r) => some (b :: s, r)

/-- Is `b` an ASCII digit byte? -/
def isDigitByte (b : Nat) : Bool :=
  48 ≤ b && b ≤ 57

/-- Parse a nonempty run of digits into a natural number. -/
def parseNatDigits (acc : Nat) : List Nat → Nat × List Nat
  | b :: rest =>
      if isDigitByte b then parseNatDigits (acc * 10 + (b - 48)) rest
      else (acc, b :: rest)
  | [] => (acc, [])

mutual

/-- Recursive-descent JSON value parser (the `serde_json` subset described
at the top of the file), with fuel bounding the recursion depth; returns
the value and the unconsumed input. -/
def parseValue : Nat → List Nat → Option (Json × List Nat)
  | 0, _ => none
  | fuel + 1, input =>
    match skipWs input with
    | [] => none
    | 34 :: rest =>
        match parseStringBody rest with
        | none => none
        | some (s, r) => some (.str s, r)
    | 91 :: rest =>
        match skipWs rest with
        | 93 :: r => some (.arr [], r)
        | other => match parseArrItems fuel other with
          | none => none
          | some (xs, r) => some (.arr xs, r)
    | 123 :: rest =>
        match skipWs rest with
        | 125 :: r => some (.obj [], r)
        | other => match parseObjItems fuel other with
          | none => none
          | some (fs, r) => some (.obj fs, r)
    | 116 :: 114 :: 117 :: 101 :: rest => some (.bool true, rest)
    | 102 :: 97 :: 108 :: 115 :: 101 :: rest => some (.bool false, rest)
    | 110 :: 117 :: 108 :: 108 :: rest => some (.null, rest)
    | 45 :: b :: rest =>
        if isDigitByte b then
          let (n, r) := parseNatDigits (b - 48) rest
          some (.num (-(n : Int)), r)
        else none
    | b :: rest =>
        if isDigitByte b then
          let (n, r) := parseNatDigits (b - 48) rest
          some (.num (n : Int), r)
        else none

/-- Parse the elements of a nonempty JSON array after `[`, through `]`. -/
def parseArrItems : Nat → List Nat → Option (List Json × List Nat)
  | 0, _ => none
  | fuel + 1, input =>
    match parseValue fuel input with
    | none => none
    | some (v, rest) =>
      match skipWs rest with
      | 44 :: r2 =>
          match parseArrItems fuel r2 with
          | none => none
          | some (vs, r) => some (v :: vs, r)
      | 93 :: r2 => some ([v], r2)
      | _ => none

/-- Parse the members of a nonempty JSON object after `{`, through `}`. -/
def parseObjItems : Nat → List Nat → Option (List (List Nat × Json) × List Nat)
  | 0, _ => none
  | fuel + 1, input =>
    match skipWs input with
    | 34 :: rest =>
      match parseStringBody rest with
      | none => none
      | some (k, r1) =>
        match skipWs r1 with
        | 58 :: r2 =>
          match parseValue fuel r2 with
          | none => none
          | some (v, r3) =>
            match skipWs r3 with
            | 44 :: r4 =>
                match parseObjItems fuel r4 with
                | none => none
                | some (fs, r) => some ((k, v) :: fs, r)
            | 125 :: r4 => some ([(k, v)], r4)
            | _ => none
        | _ => none
    | _ => none

end

/-- `serde_json::from_str` on a whole input: parse one JSON value and require
that nothing but whitespace follows (trailing bytes are an error). -/
def parseJson (input : List Nat) : Option Json :=
  match parseValue (input.length + 1) input with
  | none => none
  | some (v, rest) => if skipWs rest = [] then some v else none

/-- `struct Message { r#type: String, data: Value }` from `main.rs`. -/
structure Message where
  type : List Nat
  data : Json

/-- First value bound to key `k` in an object's field list. -/
def lookupField (k : List Nat) : List (List Nat × Json) → Option Json
  | [] => none
  | (k', v) :: fs => if k' = k then some v else lookupField k fs

/-- The serde-derived deserialization of `Message` from a JSON value: the
value must be an object carrying a string field `"type"` and a field
`"data"` of any shape (unknown fields are ignored; the inputs considered
here have no duplicate keys, so first-key lookup is faithful). -/
def messageFromJson : Json → Option Message
  | .obj fs =>
      match lookupField (bytesOf "type") fs with
      | some (.str t) =>
          match lookupField (bytesOf "data") fs with
          | some d => some ⟨t, d⟩
          | none => none
      | _ => none
  | _ => none

/-- `serde_json::from_str::<Message>`: parse the whole input as JSON, then
deserialize the `Message` shape. -/
def messageFromStr (input : List Nat) : Option Message :=
  match parseJson input with
  | none => none
  | some v => messageFromJson v

/-- Extract the byte strings of a JSON list when every element is a string. -/
def stringsOfJsonList : List Json → Option (List (List Nat))
  | [] => some []
  | .str s :: xs =>
      match stringsOfJsonList xs with
      | some ss => some (s :: ss)
      | none => none
  | _ :: _ => none

/-- `serde_json::from_value::<Vec<String>>`: succeeds exactly on an array
whose elements are all strings. -/
def argsFromValue : Json → Option (List (List Nat))
  | .arr xs => stringsOfJsonList xs
  | _ => none

/-- Outcome of `handle_message`: either the argument list is passed to
`handle_args` (dispatch), or the unknown type is printed, or the
`from_value(message.data).unwrap()` call panics. -/
inductive HandleOutcome where
  | dispatched (args : List (List Nat))
  | unknownType (t : List Nat)
  | panicked
deriving DecidableEq, Repr

/-- `handle_message` from `main.rs`: match on `message.r#type`; for
`"args"`, `from_value(message.data).unwrap()` (panicking on failure) and
pass the arguments to `handle_args`; any other type is only logged. -/
def handle_message (m : Message) : HandleOutcome :=
  if m.type = bytesOf "args" then
    match argsFromValue m.data with
    | some args => .dispatched args
    | none => .panicked
  else .unknownType m.type

/-- Buffer size of `handle_client`'s single read: `vec![0; 1024]`. -/
def bufferSize : Nat := 1024

/-- Outcome of `handle_client` on one accepted connection. -/
inductive ClientOutcome where
  | handled (h : HandleOutcome)
  | deserializeFailed
  | panickedOnRead
deriving DecidableEq, Repr

/-- `handle_client` from `main.rs`, applied to the result of the single
`stream.read` call: `Err` is `unwrap`ped into a panic; otherwise at most
`bufferSize` bytes are taken (the read cannot return more; taking exactly
`min (length) 1024` is the read's best case), converted with
`from_utf8_lossy` (identity on the ASCII traffic modelled here), and fed
to `serde_json::from_str::<Message>`; a deserialization error is printed
and the handler returns; otherwise `handle_message` runs. -/
def handle_client (readResult : Except Unit (List Nat)) : ClientOutcome :=
  match readResult with
  | .error _ => .panickedOnRead
  | .ok wire =>
    match messageFromStr (wire.take bufferSize) with
    | none => .deserializeFailed
    | some m => .handled (handle_message m)

/-- `generate_message` from `main.rs`: `json!({"type": t, "data": d})`.
`serde_json`'s default map is a `BTreeMap`, so the stored (and encoded)
field order is sorted: `"data"` before `"type"`. -/
def generate_message (t : List Nat) (d : Json) : Json :=
  .obj [(bytesOf "data", d), (bytesOf "type", .str t)]

/-- The message `main` builds on the client path: `env::args().skip(1)`
serialized with `json!`, passed to `generate_message("args", _)`. -/
def clientMessage (argv : List (List Nat)) : Json :=
  generate_message (bytesOf "args") (.arr ((argv.drop 1).map .str))

/-- `send_to_running_instance` from `main.rs`: the bytes written to the
stream are `message.to_string().as_bytes()` — the compact JSON encoding,
with no framing around it. -/
def send_to_running_instance (message : Json) : List Nat :=
  encodeJson message

/-- The server's accept loop (`start_server`): each accepted connection is
handed to its own spawned task running `handle_client`; task outcomes are
never observed by the loop, so the handling of each connection is
independent of every other's outcome. -/
def server_loop (conns : List (Except Unit (List Nat))) : List ClientOutcome :=
  conns.map handle_client

/-- Shared state of the daemon process: the shutdown `Notify` (as a
write-once signaled flag) and whether/with what code the process has
exited. -/
structure DaemonState where
  shutdownSignaled : Bool
  exited : Option Nat
deriving DecidableEq, Repr

/-- Modelled from the spec: the Shutdown Signal (`tokio::sync::Notify` as
used here) — signaling sets a write-once flag that all current and future
waiters observe; it cannot be un-signaled.  No call site in `main.rs` ever
invokes it. -/
def signalShutdown (s : DaemonState) : DaemonState :=
  { s with shutdownSignaled := true }

/-- The tray `"Quit"` menu callback registered in `setup_tray`: its body is
`process::exit(0)` — it terminates the process with code 0 directly and
touches nothing else (in particular not the `Notify`). -/
def quit_action (s : DaemonState) : DaemonState :=
  { s with exited := some 0 }

/-- Outcome of a spawned task. -/
inductive TaskOutcome where
  | running
  | panickedTask
deriving DecidableEq, Repr

/-- How the process ends: a normal exit with a code, or an abort from a
panic on the main task (non-zero exit at the OS level). -/
inductive ExitOutcome where
  | exited (code : Nat)
  | panickedMain
deriving DecidableEq, Repr

/-- `start_server` from `main.rs`, run inside its own spawned task:
`TcpListener::bind(...).await.unwrap()` panics that task on a bind error
(the panic is confined to the task by the tokio runtime; the process
continues); on success the accept loop runs forever. -/
def start_server_outcome : Except Unit Unit → TaskOutcome
  | .error _ => .panickedTask
  | .ok _ => .running

/-- Observable effects of one run of `main`. -/
structure MainRun where
  relayAttempts : Nat
  serverSpawned : Bool
  traySpawned : Bool
  serverTask : Option TaskOutcome
  exit : ExitOutcome
deriving DecidableEq, Repr

/-- `main` from `main.rs`, as a function of the environment's responses:
`lockNew` is the result of `SingleInstance::new(app_name)` (`Ok` carries
`instance.is_single()`; `Err` is `unwrap`ped into a panic of the main
task, aborting the process).  When the instance is not single, `main`
builds the args message, calls `send_to_running_instance` exactly once,
only logs a relay error (`eprintln`), and returns — process exit code 0
either way.  When it is single, it spawns `start_server` (whose bind
result is `bind`) and `setup_tray`, then blocks on `notify.notified()`,
which nothing ever signals: the only exit is the tray Quit callback's
`process::exit(0)`. -/
def main_run (lockNew : Except Unit Bool) (relay : Except Unit Unit)
    (bind : Except Unit Unit) : MainRun :=
  match lockNew with
  | .error _ =>
      { relayAttempts := 0, serverSpawned := false, traySpawned := false
        serverTask := none, exit := .panickedMain }
  | .ok isSingle =>
    if isSingle then
      { relayAttempts := 0, serverSpawned := true, traySpawned := true
        serverTask := some (start_server_outcome bind), exit := .exited 0 }
    else
      match relay with
      | .ok _ =>
          { relayAttempts := 1, serverSpawned := false, traySpawned := false
            serverTask := none, exit := .exited 0 }
      | .error _ =>
          { relayAttempts := 1, serverSpawned := false, traySpawned := false
            serverTask := none, exit := .exited 0 }

/-- Result one process observes from an Instance Lock acquisition. -/
inductive LockResult where
  | acquired
  | alreadyHeld
deriving DecidableEq, Repr

/-- Modelled from the spec: the Instance Lock arbiter (the
`single_instance` crate over an OS named mutex, outside this repository).
Concurrent acquisition attempts under one name are serialized by the OS
into some arrival order; each attempt atomically takes the lock when it
is free and otherwise observes the existing holder. -/
def runAcquires : Option Nat → List Nat → List LockResult
  | _, [] => []
  | some h, _ :: ps => .alreadyHeld :: runAcquires (some h) ps
  | none, p :: ps => .acquired :: runAcquires (some p) ps

/-- All acquisition results for a set of processes arriving in the given
order, starting from a free lock. -/
def acquireAll (order : List Nat) : List LockResult :=
  runAcquires none order

/-- A 4-byte big-endian rendering of a length, as the spec's frame prefix
prescribes. -/
def be32 (n : Nat) : List Nat :=
  [n / 2 ^ 24 % 256, n / 2 ^ 16 % 256, n / 2 ^ 8 % 256, n % 256]

/-- A process argument vector (`env::args()`, program name first) with a
300-element argument list, whose encoded message exceeds the server's
1024-byte read buffer. -/
def argv300 : List (List Nat) :=
  bytesOf "frogworks-daemon" :: List.replicate 300 (bytesOf "x")

/-- A small argument vector: program name and one argument. -/
def argvSmall : List (List Nat) :=
  [bytesOf "frogworks-daemon", bytesOf "x"]

end Frogworks

namespace Frogworks

set_option maxRecDepth 100000

/-- After the lock is held, every later acquisition attempt observes
`alreadyHeld`. -/
theorem runAcquires_held (h : Nat) (ps : List Nat) :
    runAcquires (some h) ps = List.replicate ps.length .alreadyHeld := by
  induction ps with
  | nil => rfl
  | cons p ps ih => simpa [runAcquires, List.replicate] using ih

/-- A JSON array of strings deserializes back to exactly those strings. -/
theorem stringsOfJsonList_map_str (xs : List (List Nat)) :
    stringsOfJsonList (xs.map .str) = some xs := by
  induction xs with
  | nil => rfl
  | cons x xs ih => simp [stringsOfJsonList, ih]

/-- C1: the claimed relay fidelity fails on the code.  For a 300-element
argument list the encoded `"args"` message is longer than the single
1024-byte read buffer `handle_client` uses, the truncated JSON fails to
deserialize, and the dispatcher (`handle_args`) receives nothing — the
decode-after-encode round trip is not the identity on argument
sequences. -/
theorem relay_truncation_failure :
    bufferSize < (send_to_running_instance (clientMessage argv300)).length ∧
    handle_client (.ok (send_to_running_instance (clientMessage argv300))) =
      .deserializeFailed :=
  ⟨by decide, by decide⟩

/-- C2: there is no 4-byte big-endian length prefix on the loopback wire.
The bytes the client writes are exactly the JSON text of the envelope
(they begin with `\x7b"da`, not with a big-endian length), and the server
deserializes the raw buffer directly — an unprefixed small message is
dispatched as-is, which would be impossible if a length header were
consumed first. -/
theorem no_length_prefix_on_wire :
    (send_to_running_instance (clientMessage argvSmall)).take 4 =
      bytesOf "\x7b\x22da" ∧
    (send_to_running_instance (clientMessage argvSmall)).take 4 ≠
      be32 ((send_to_running_instance (clientMessage argvSmall)).length - 4) ∧
    handle_client (.ok (send_to_running_instance (clientMessage argvSmall))) =
      .handled (.dispatched [bytesOf "x"]) :=
  ⟨by decide, by decide, by decide⟩

/-- C3: a malformed buffer is indeed only logged and the connection
dropped (`deserializeFailed`), but an `"args"` envelope whose data fails
structural validation (here `[1]`, not an array of strings) makes
`from_value(message.data).unwrap()` panic inside the connection's handler
instead of being logged and dropped — the claimed never-crash handling
does not hold for that decode-failure class. -/
theorem structural_validation_panics :
    handle_client
        (.ok (bytesOf "\x7b\x22data\x22:[1],\x22type\x22:\x22args\x22\x7d")) =
      .handled .panicked ∧
    handle_client (.ok (bytesOf "not json")) = .deserializeFailed :=
  ⟨by decide, by decide⟩

/-- C4 counterexample: the Quit menu action does not signal the Shutdown
Signal — starting from the unsignaled state, running the quit callback
leaves the signal unsignaled and instead exits the process directly with
code 0. -/
theorem quit_action_does_not_signal :
    (quit_action ⟨false, none⟩).shutdownSignaled = false ∧
    (quit_action ⟨false, none⟩).exited = some 0 :=
  ⟨rfl, rfl⟩

/-- C4 amended: the Quit action terminates the process directly with exit
code 0 (`process::exit(0)`) and never touches the Shutdown Signal, from
any state; the signal itself is idempotent (signaling twice equals
signaling once), but no code path ever signals it. -/
theorem quit_action_exits_directly (s : DaemonState) :
    (quit_action s).shutdownSignaled = s.shutdownSignaled ∧
    (quit_action s).exited = some 0 ∧
    signalShutdown (signalShutdown s) = signalShutdown s :=
  ⟨rfl, rfl, rfl⟩

/-- C5 counterexample: when the client path's relay fails, `main` only
logs the error and returns — the process exit code is 0, not non-zero as
claimed. -/
theorem relay_failure_exits_zero :
    (main_run (.ok false) (.error ()) (.ok ())).exit = .exited 0 :=
  rfl

/-- C5 amended: the exit code is 0 on graceful shutdown via the quit
action and also 0 when the client path's relay fails (the failure is only
logged); lock registration failure panics the main task (non-zero abort);
a bind failure panics only the spawned server task and leaves the
process's exit unchanged. -/
theorem exit_code_behavior (relay bind : Except Unit Unit) (s : DaemonState) :
    (main_run (.ok false) relay bind).exit = .exited 0 ∧
    (main_run (.error ()) relay bind).exit = .panickedMain ∧
    (main_run (.ok true) relay (.error ())).exit = .exited 0 ∧
    (main_run (.ok true) relay (.error ())).serverTask = some .panickedTask ∧
    (quit_action s).exited = some 0 :=
  ⟨by cases relay <;> rfl, rfl, rfl, rfl, rfl⟩

/-- C6: whenever the Instance Lock is not confirmed exclusive, neither the
Relay Server nor the Presence Task is ever spawned; and on `AlreadyHeld`
(`is_single()` false) `main` makes exactly one relay attempt and
terminates with exit code 0 regardless of the relay's outcome — no retry,
no promotion to primary. -/
theorem already_held_relays_once_and_stops (relay bind : Except Unit Unit)
    (lockNew : Except Unit Bool) (h : lockNew ≠ .ok true) :
    (main_run lockNew relay bind).serverSpawned = false ∧
    (main_run lockNew relay bind).traySpawned = false ∧
    (main_run (.ok false) relay bind).relayAttempts = 1 ∧
    (main_run (.ok false) relay bind).exit = .exited 0 := by
  rcases lockNew with e | b
  · cases relay <;> exact ⟨rfl, rfl, rfl, rfl⟩
  · cases b
    · cases relay <;> exact ⟨rfl, rfl, rfl, rfl⟩
    · exact absurd rfl h

/-- Witness for C6 at a concrete non-exclusive lock result and a failing
relay. -/
theorem already_held_relays_once_and_stops_witness :
    (main_run (.ok false) (.error ()) (.ok ())).serverSpawned = false ∧
    (main_run (.ok false) (.error ()) (.ok ())).traySpawned = false ∧
    (main_run (.ok false) (.error ()) (.ok ())).relayAttempts = 1 ∧
    (main_run (.ok false) (.error ()) (.ok ())).exit = .exited 0 :=
  already_held_relays_once_and_stops (.error ()) (.ok ()) (.ok false)
    (by simp)

/-- C7: for any nonempty set of processes attempting to acquire the
Instance Lock under one name (in the arrival order the OS serializes them
into), exactly the first observes `acquired` and every other observes
`alreadyHeld` — never zero and never more than one acquirer. -/
theorem lock_exclusivity (order : List Nat) (h : order ≠ []) :
    acquireAll order =
      .acquired :: List.replicate (order.length - 1) .alreadyHeld := by
  match order with
  | [] => exact absurd rfl h
  | p :: ps => simp [acquireAll, runAcquires, runAcquires_held]

/-- Witness for C7 with three concurrent processes. -/
theorem lock_exclusivity_witness :
    acquireAll [7, 3, 3] = [.acquired, .alreadyHeld, .alreadyHeld] :=
  lock_exclusivity [7, 3, 3] (by simp)

/-- C8: for every startup argument vector, the envelope the client builds
deserializes as a `Message` whose type is `"args"` and whose data is the
array of the arguments with the program name (the first element) dropped;
that array deserializes (as `Vec<String>`) back to exactly those
arguments in order. -/
theorem client_message_well_formed (argv : List (List Nat)) :
    messageFromJson (clientMessage argv) =
      some ⟨bytesOf "args", .arr ((argv.drop 1).map .str)⟩ ∧
    argsFromValue (.arr ((argv.drop 1).map .str)) = some (argv.drop 1) :=
  ⟨rfl, stringsOfJsonList_map_str _⟩

/-- C9: a well-formed envelope with any type other than `"args"` is only
logged by `handle_message` — nothing is dispatched and nothing panics. -/
theorem unknown_kind_ignored (m : Message) (h : m.type ≠ bytesOf "args") :
    handle_message m = .unknownType m.type := by
  simp [handle_message, h]

/-- Witness for C9 at type `"ping"`. -/
theorem unknown_kind_ignored_witness :
    handle_message ⟨bytesOf "ping", .null⟩ = .unknownType (bytesOf "ping") :=
  unknown_kind_ignored ⟨bytesOf "ping", .null⟩ (by decide)

/-- C10: a transport-level read error makes the connection's handler panic
on the unwrapped read result, and — because each handler runs in its own
spawned task whose outcome the accept loop never observes — connections
before and after it are handled exactly as they would be alone. -/
theorem read_error_panics_handler_only (e : Unit)
    (pre post : List (Except Unit (List Nat))) :
    handle_client (.error e) = .panickedOnRead ∧
    server_loop (pre ++ .error e :: post) =
      server_loop pre ++ .panickedOnRead :: server_loop post :=
  ⟨rfl, by simp [server_loop, handle_client]⟩

end Frogworks
